import Mathlib

set_option maxRecDepth 8000

/-!
Verification of the WhatsApp weather-alert bot (`src/ogindex.js`, first
webhook variant, lines 1-288) against its specification.

The JavaScript source is shallowly embedded: the global mutable maps
(`subscribers`, `userLocations`, `userPreferences`, `userActivities`)
become an explicit `Directory` state threaded through a pure `webhook`
step function; the external providers (weather HTTP call, Gemini advice,
Gemini translation, locale date formatting) become oracle parameters;
JavaScript string primitives (`trim`, `toLowerCase`, `startsWith`,
`slice`, one-occurrence `replace`) are modelled on `List Char`.
-/

/-! ## JavaScript string primitives -/

/-- The whitespace class used by ECMAScript `String.prototype.trim`
(ASCII whitespace plus NBSP, BOM, LS, PS — the code points relevant
to the messages this bot handles). -/
def jsWhite (c : Char) : Bool :=
  c = ' ' || c = '\t' || c = '\n' || c = '\r' ||
  c.toNat = 11 || c.toNat = 12 || c.toNat = 160 ||
  c.toNat = 8232 || c.toNat = 8233 || c.toNat = 65279

/-- ASCII case folding of one character, as `String.prototype.toLowerCase`
acts on the command alphabet (the bot's commands are ASCII). -/
def lowerChar (c : Char) : Char :=
  match c with
  | 'A' => 'a' | 'B' => 'b' | 'C' => 'c' | 'D' => 'd' | 'E' => 'e'
  | 'F' => 'f' | 'G' => 'g' | 'H' => 'h' | 'I' => 'i' | 'J' => 'j'
  | 'K' => 'k' | 'L' => 'l' | 'M' => 'm' | 'N' => 'n' | 'O' => 'o'
  | 'P' => 'p' | 'Q' => 'q' | 'R' => 'r' | 'S' => 's' | 'T' => 't'
  | 'U' => 'u' | 'V' => 'v' | 'W' => 'w' | 'X' => 'x' | 'Y' => 'y'
  | 'Z' => 'z'
  | c => c

/-- `trim` on a character list: drop whitespace from both ends. -/
def trimL (l : List Char) : List Char :=
  ((l.dropWhile jsWhite).reverse.dropWhile jsWhite).reverse

/-- JS `s.trim()`. -/
def jsTrim (s : String) : String := ⟨trimL s.data⟩

/-- JS `s.toLowerCase()` (ASCII model). -/
def jsToLower (s : String) : String := ⟨s.data.map lowerChar⟩

/-- `listLeads p l` holds when `p` is an initial segment of `l`
(the list-level meaning of JS `startsWith`). -/
def listLeads : List Char → List Char → Bool
  | [], _ => true
  | _ :: _, [] => false
  | a :: as, b :: bs => a = b && listLeads as bs

/-- JS `s.startsWith(p)`. -/
def jsStartsWith (s p : String) : Bool := listLeads p.data s.data

/-- Remove the first occurrence of `pat` from `l`
(JS `s.replace(pat, "")` with a string pattern replaces one occurrence). -/
def eraseFirstL (pat : List Char) : List Char → List Char
  | [] => []
  | c :: cs => if listLeads pat (c :: cs) then (c :: cs).drop pat.length
               else c :: eraseFirstL pat cs

/-- JS `s.replace(pat, "")`. -/
def jsEraseFirst (s pat : String) : String := ⟨eraseFirstL pat.data s.data⟩

/-- JS `s.slice(n)`. -/
def jsDrop (n : Nat) (s : String) : String := ⟨s.data.drop n⟩

/-- JS `array.join("\n")`. -/
def joinNL (l : List String) : String := String.intercalate "\n" l

/-- Line 134: `incomingRaw.toString().trim().toLowerCase()`
(with line 133's `req.body.Body || ""` default). -/
def jsNormMsg (body : Option String) : String := jsToLower (jsTrim (body.getD ""))

/-- Line 135: `(req.body.From || "").replace("whatsapp:", "").trim()`. -/
def jsNormPhone (fromRaw : Option String) : String :=
  jsTrim (jsEraseFirst (fromRaw.getD "") "whatsapp:")

/-! ## JavaScript `Map` and `Set` on association lists

A JS `Map` is an insertion-ordered sequence of distinct keys; `set`
updates an existing key in place or appends a fresh one, `delete`
removes the key's entry.  A JS `Set` is an insertion-ordered list of
distinct elements. -/

def mapGet {α : Type} : List (String × α) → String → Option α
  | [], _ => none
  | (a, b) :: rest, k => if a = k then some b else mapGet rest k

def mapSet {α : Type} : List (String × α) → String → α → List (String × α)
  | [], k, v => [(k, v)]
  | (a, b) :: rest, k, v =>
    if a = k then (k, v) :: rest else (a, b) :: mapSet rest k v

def mapDelete {α : Type} : List (String × α) → String → List (String × α)
  | [], _ => []
  | (a, b) :: rest, k =>
    if a = k then mapDelete rest k else (a, b) :: mapDelete rest k

def setAdd : List String → String → List String
  | [], p => [p]
  | a :: rest, p => if a = p then a :: rest else a :: setAdd rest p

def setDelete : List String → String → List String
  | [], _ => []
  | a :: rest, p => if a = p then setDelete rest p else a :: setDelete rest p

/-! ## Weather lookup (`getWeather`, lines 25-57) -/

/-- The fields of the OpenWeatherMap response body that `getWeather`
reads: `name`, `main.temp`, the optional `wind` object's `speed`, and
the optional `weather[0]` object's `main` and `description`. -/
structure OwmResponse where
  name : String
  temp : ℚ
  wind : Option ℚ
  cond : Option (String × String)
  deriving DecidableEq, Repr

/-- JS template-literal stringification of the numbers the bot
interpolates (integral values print as plain integers, which is all the
claims exercise; non-integral rationals would print as fractions here
where JS prints decimals, a formatting difference no claim depends on). -/
def ratStr (q : ℚ) : String :=
  if q.den = 1 then toString q.num else toString q.num ++ "/" ++ toString q.den

def heatMsg (t : ℚ) : String := "🌡️ Heat Alert: " ++ ratStr t ++ "°C"
def coldMsg (t : ℚ) : String := "❄️ Cold Alert: " ++ ratStr t ++ "°C"
def windMsg (s : ℚ) : String := "💨 Wind Alert: " ++ ratStr s ++ " m/s"
def rainMsg (d : String) : String := "🌧️ Rain Alert: " ++ d
def stormMsg (d : String) : String := "⛈️ Storm Alert: " ++ d

/-- Lines 33-44: the sequential `alerts.push` chain. -/
def mkAlerts (w : OwmResponse) : List String :=
  let a : List String := []
  let a := if w.temp > 35 then a ++ [heatMsg w.temp] else a
  let a := if w.temp < 5 then a ++ [coldMsg w.temp] else a
  let a := match w.wind with
           | some s => if s > 10 then a ++ [windMsg s] else a
           | none => a
  match w.cond with
  | some cd =>
    let a := if cd.1 = "Rain" then a ++ [rainMsg cd.2] else a
    if cd.1 = "Thunderstorm" then a ++ [stormMsg cd.2] else a
  | none => a

/-- The value `getWeather` resolves with on success (lines 46-52). -/
structure WeatherResult where
  city : String
  temp : ℚ
  description : String
  alerts : List String
  windSpeed : ℚ
  deriving DecidableEq, Repr

/-- `getWeather` (lines 25-57).  The argument is the provider outcome:
`none` models a failed HTTP call.  A response whose `weather[0]` entry
is absent also yields `none`: line 49 reads
`weather.weather[0].description` unguarded, the thrown `TypeError` is
caught and `null` is returned.  `wind: weather.wind || { speed: 0 }`
defaults a missing wind object's speed to `0`. -/
def getWeather (resp : Option OwmResponse) : Option WeatherResult :=
  match resp with
  | none => none
  | some w =>
    match w.cond with
    | none => none
    | some cd =>
      some { city := w.name, temp := w.temp, description := cd.2,
             alerts := mkAlerts w, windSpeed := w.wind.getD 0 }

/-- `getCropAdviceAI` (lines 62-83): the Gemini outcome, or the fixed
fallback sentence from the `catch` arm when the provider fails. -/
def getCropAdviceAI (adviceOracle : Option String) : String :=
  adviceOracle.getD "Could not fetch AI advice right now."

/-! ## The User Directory (lines 19-22) -/

/-- One `userActivities` entry: `{ activity, date: new Date().toISOString() }`. -/
structure Activity where
  activity : String
  date : String
  deriving DecidableEq, Repr

/-- The four process-global stores. -/
structure Directory where
  subscribers : List String
  userLocations : List (String × String)
  userPreferences : List (String × String)
  userActivities : List (String × List Activity)
  deriving DecidableEq, Repr

/-- The empty directory the process starts with. -/
def emptyDir : Directory := ⟨[], [], [], []⟩

/-! ## The webhook handler (`app.post("/webhook")`, lines 132-252) -/

/-- The observable outcome of one webhook request: the directory after
the request, the outbound WhatsApp messages `(to, text)` in send order,
the HTTP status of the acknowledgement, and the reply text handed to
`replyAndEnd` before translation (`none` for the first-contact and
missing-sender branches, which do not go through `replyAndEnd`). -/
structure DispatchResult where
  dir : Directory
  sends : List (String × String)
  status : Nat
  composed : Option String
  deriving DecidableEq, Repr

def welcomeText : String :=
  "👋 Welcome! Choose your language by sending:\n1. Hindi\n2. Marathi\n3. English\n\nThen send 'subscribe Mumbai' to start."

def logErrText : String :=
  "⚠️ Please provide an activity to log. Example: 'log sprayed tomatoes'"

def logOkText (activity : String) : String :=
  "✅ Got it! Logged your activity: \"" ++ activity ++ "\""

def cityUsageText : String := "Please specify a city. Example: \"subscribe Mumbai\""

def subOkText (city : String) : String :=
  "✅ Subscribed to weather alerts for " ++ city ++
  "!\n\nYou'll receive alerts for:\n• Extreme temperatures\n• Heavy rain/storms\n• Strong winds\n\nSend \"unsubscribe\" to stop alerts."

def unsubText : String := "❌ Unsubscribed from weather alerts."

def weatherUsageText : String := "Please specify a city. Example: \"weather Mumbai\""

def weatherFailText : String :=
  "Sorry, could not fetch weather data. Please check the city name."

def helpText : String :=
  "🤖 Weather Alert Bot Commands:\n\n📍 *subscribe [city]* - Get weather alerts\n❌ *unsubscribe* - Stop alerts\n🌤️ *weather [city]* - Current weather\n📝 *log [activity]* - Log farm activity\n📋 *log view* - View logged activities\n🗑️ *log clear* - Clear all logged activities\n❓ *help* - Show this message\n\nExample: \"subscribe Mumbai\""

/-- The status-branch reply (lines 152-156). -/
def statusText (d : Directory) (ph : String) : String :=
  "📋 *Your Settings*\n\n🌍 City: " ++ ((mapGet d.userLocations ph).getD "Not subscribed") ++
  "\n🗣️ Language: " ++ ((mapGet d.userPreferences ph).getD "en") ++
  "\n🔔 Subscribed: " ++ (if d.subscribers.contains ph then "Yes" else "No") ++
  "\n\nYou can type \"subscribe [city]\" to change city or \"1/2/3\" to change language."

/-- The weather-branch reply body (lines 228-233). -/
def weatherBaseText (w : WeatherResult) : String :=
  let base := "🌤️ Current weather in " ++ w.city ++ ":\n\n🌡️ Temperature: " ++
              ratStr w.temp ++ "°C\n☁️ Conditions: " ++ w.description
  if w.alerts.length > 0 then base ++ "\n\n⚠️ ALERTS:\n" ++ joinNL w.alerts else base

/-- Lines 228-233 with the farming-tips section appended when the
advice string is non-empty (`if (aiAdvice && aiAdvice.length > 0)`). -/
def weatherReplyText (w : WeatherResult) (advice : String) : String :=
  if advice = "" then weatherBaseText w
  else weatherBaseText w ++ "\n\n🌱 Farming Tips:\n" ++ advice

/-- `replyAndEnd` (lines 109-121): translate when the stored language is
not `en` (falling back to the English text when translation throws),
send, acknowledge with 200.  `trOracle lang text` is the translation
provider outcome. -/
def outText (d : Directory) (ph text : String)
    (trOracle : String → String → Option String) : String :=
  let lang := (mapGet d.userPreferences ph).getD "en"
  if lang = "en" then text else (trOracle lang text).getD text

def mkReply (d : Directory) (ph text : String)
    (trOracle : String → String → Option String) : DispatchResult :=
  { dir := d, sends := [(ph, outText d ph text trOracle)], status := 200,
    composed := some text }

/-- Line 222: `incomingMsg.replace("weather", "").trim() || userLocations.get(from)` —
an empty trimmed remainder is falsy, so the stored location is the fallback. -/
def resolveCity (d : Directory) (m ph : String) : Option String :=
  if jsTrim (jsEraseFirst m "weather") = "" then mapGet d.userLocations ph
  else some (jsTrim (jsEraseFirst m "weather"))

/-- The weather branch (lines 221-236).  `weatherOracle` is the HTTP
outcome per city; `adviceOracle` the Gemini outcome. -/
def weatherBranch (d : Directory) (m ph : String)
    (weatherOracle : String → Option OwmResponse) (adviceOracle : Option String)
    (trOracle : String → String → Option String) : DispatchResult :=
  match resolveCity d m ph with
  | none => mkReply d ph weatherUsageText trOracle
  | some c =>
    if c = "" then mkReply d ph weatherUsageText trOracle
    else
      match getWeather (weatherOracle c) with
      | none => mkReply d ph weatherFailText trOracle
      | some w => mkReply d ph (weatherReplyText w (getCropAdviceAI adviceOracle)) trOracle

/-- Lines 180-181: ensure the activity array exists, then `push` one entry. -/
def pushActivity (d : Directory) (ph text now : String) : Directory :=
  { d with userActivities :=
      mapSet d.userActivities ph (((mapGet d.userActivities ph).getD []) ++ [⟨text, now⟩]) }

/-- Lines 205-206: `subscribers.add(from); userLocations.set(from, city)`. -/
def doSubscribe (d : Directory) (ph city : String) : Directory :=
  { d with subscribers := setAdd d.subscribers ph,
           userLocations := mapSet d.userLocations ph city }

/-- Lines 215-216: `subscribers.delete(from); userLocations.delete(from)`. -/
def doUnsubscribe (d : Directory) (ph : String) : Directory :=
  { d with subscribers := setDelete d.subscribers ph,
           userLocations := mapDelete d.userLocations ph }

def langCode (m : String) : String := if m = "1" then "hi" else if m = "2" then "mr" else "en"

def langName (m : String) : String :=
  if m = "1" then "Hindi" else if m = "2" then "Marathi" else "English"

/-- The command chain for a user that already has a record (lines
147-251), evualuated top to bottom on the normalized message `m`.
`locFmt` models `new Date(iso).toLocaleString()`; `now` models
`new Date().toISOString()`. -/
def dispatchKnown (d : Directory) (m ph : String)
    (weatherOracle : String → Option OwmResponse) (adviceOracle : Option String)
    (trOracle : String → String → Option String) (locFmt : String → String)
    (now : String) : DispatchResult :=
  if m = "status" ∨ m = "/status" ∨ m = "my status" then
    mkReply d ph (statusText d ph) trOracle
  else if m = "1" ∨ m = "2" ∨ m = "3" then
    mkReply { d with userPreferences := mapSet d.userPreferences ph (langCode m) }
      ph ("✅ Language set to " ++ langName m ++ ".") trOracle
  else if jsStartsWith m "log " then
    if jsTrim (jsDrop 4 m) = "" then mkReply d ph logErrText trOracle
    else
      mkReply (pushActivity d ph (jsTrim (jsDrop 4 m)) now)
        ph (logOkText (jsTrim (jsDrop 4 m))) trOracle
  else if m = "view log" then
    if ((mapGet d.userActivities ph).getD []).length = 0 then
      mkReply d ph "No activities logged yet." trOracle
    else
      mkReply d ph ("📋 Your logged activities:\n" ++
        joinNL (((mapGet d.userActivities ph).getD []).map
          (fun l => "🗓️ " ++ locFmt l.date ++ ": " ++ l.activity))) trOracle
  else if m = "clear log" then
    mkReply { d with userActivities := mapDelete d.userActivities ph }
      ph "✅ Your activity logs have been cleared." trOracle
  else if jsStartsWith m "subscribe" then
    if jsTrim (jsEraseFirst m "subscribe") = "" then mkReply d ph cityUsageText trOracle
    else
      mkReply (doSubscribe d ph (jsTrim (jsEraseFirst m "subscribe")))
        ph (subOkText (jsTrim (jsEraseFirst m "subscribe"))) trOracle
  else if m = "unsubscribe" then
    mkReply (doUnsubscribe d ph) ph unsubText trOracle
  else if jsStartsWith m "weather" then
    weatherBranch d m ph weatherOracle adviceOracle trOracle
  else mkReply d ph helpText trOracle

/-- One webhook request (lines 132-252): normalize the body and sender,
reject a missing sender with 400 (line 137), take the first-contact
branch for an unknown sender (lines 140-145), otherwise run the command
chain. -/
def webhook (d : Directory) (body fromRaw : Option String)
    (weatherOracle : String → Option OwmResponse) (adviceOracle : Option String)
    (trOracle : String → String → Option String) (locFmt : String → String)
    (now : String) : DispatchResult :=
  if jsNormPhone fromRaw = "" then { dir := d, sends := [], status := 400, composed := none }
  else if (mapGet d.userPreferences (jsNormPhone fromRaw)).isNone then
    { dir := { d with userPreferences := mapSet d.userPreferences (jsNormPhone fromRaw) "en" },
      sends := [(jsNormPhone fromRaw, welcomeText)], status := 200, composed := none }
  else
    dispatchKnown d (jsNormMsg body) (jsNormPhone fromRaw)
      weatherOracle adviceOracle trOracle locFmt now

/-- Directory states reachable from process start by webhook requests,
with arbitrary provider outcomes at each step. -/
inductive Reachable : Directory → Prop where
  | start : Reachable emptyDir
  | step {d : Directory} (body fromRaw : Option String)
      (weatherOracle : String → Option OwmResponse) (adviceOracle : Option String)
      (trOracle : String → String → Option String) (locFmt : String → String)
      (now : String) (h : Reachable d) :
      Reachable (webhook d body fromRaw weatherOracle adviceOracle trOracle locFmt now).dir

/-! ## The alert scheduler sweep (`cron.schedule`, lines 257-269) -/

/-- The alert notification text (line 263). -/
def alertText (w : WeatherResult) : String :=
  "🚨 WEATHER ALERT - " ++ w.city ++ "\n\n" ++ joinNL w.alerts ++ "\n\nStay safe! 🙏"

/-- The `for (const [phone, city] of userLocations)` loop body: a
notification is sent only when the phone is subscribed and the lookup
succeeds with a non-empty alert list; a failed lookup (caught inside
`getWeather`, which then returns `null`) just moves on. -/
def sweep (subs : List String) (weatherOracle : String → Option OwmResponse) :
    List (String × String) → List (String × String)
  | [] => []
  | (ph, city) :: rest =>
    if subs.contains ph then
      match getWeather (weatherOracle city) with
      | some w =>
        if w.alerts.length > 0 then (ph, alertText w) :: sweep subs weatherOracle rest
        else sweep subs weatherOracle rest
      | none => sweep subs weatherOracle rest
    else sweep subs weatherOracle rest

/-- One firing of the alert cron job: the outbound notifications, in order. -/
def runAlertSweep (d : Directory) (weatherOracle : String → Option OwmResponse) :
    List (String × String) :=
  sweep d.subscribers weatherOracle d.userLocations

/-! ## Association-list and set lemmas -/

def keysOf {α : Type} (m : List (String × α)) : List String := m.map Prod.fst

theorem mapGet_mapSet {α : Type} (m : List (String × α)) (k q : String) (v : α) :
    mapGet (mapSet m k v) q = if q = k then some v else mapGet m q := by
  induction m with
  | nil => by_cases h : q = k <;> simp [mapSet, mapGet, h, Ne.symm]
  | cons a rest ih =>
    obtain ⟨x, y⟩ := a
    by_cases hxk : x = k
    · subst hxk
      by_cases hqk : q = x
      · subst hqk; simp [mapSet, mapGet]
      · have hxq : ¬x = q := fun h => hqk h.symm
        simp [mapSet, mapGet, hqk, hxq]
    · by_cases hxq : x = q
      · subst hxq
        have hqk : ¬x = k := hxk
        simp [mapSet, mapGet, hxk, hqk]
      · simp [mapSet, mapGet, hxk, hxq, ih]

theorem mapGet_mapDelete {α : Type} (m : List (String × α)) (k q : String) :
    mapGet (mapDelete m k) q = if q = k then none else mapGet m q := by
  induction m with
  | nil => simp [mapDelete, mapGet]
  | cons a rest ih =>
    obtain ⟨x, y⟩ := a
    by_cases hxk : x = k
    · subst hxk
      by_cases hqk : q = x
      · subst hqk; simp [mapDelete, mapGet, ih]
      · have hxq : ¬x = q := fun h => hqk h.symm
        simp [mapDelete, mapGet, hqk, hxq, ih]
    · by_cases hxq : x = q
      · subst hxq
        have hqk : ¬x = k := hxk
        simp [mapDelete, mapGet, hxk, hqk]
      · simp [mapDelete, mapGet, hxk, hxq, ih]

theorem mem_keysOf_mapSet {α : Type} (m : List (String × α)) (k q : String) (v : α) :
    q ∈ keysOf (mapSet m k v) ↔ q ∈ keysOf m ∨ q = k := by
  induction m with
  | nil => simp [mapSet, keysOf]
  | cons a rest ih =>
    obtain ⟨x, y⟩ := a
    by_cases hxk : x = k
    · subst hxk; simp [mapSet, keysOf]; tauto
    · simp only [mapSet, if_neg hxk, keysOf, List.map_cons, List.mem_cons] at *
      tauto

theorem nodup_keysOf_mapSet {α : Type} (m : List (String × α)) (k : String) (v : α)
    (h : (keysOf m).Nodup) : (keysOf (mapSet m k v)).Nodup := by
  induction m with
  | nil => simp [mapSet, keysOf]
  | cons a rest ih =>
    obtain ⟨x, y⟩ := a
    simp only [keysOf, List.map_cons, List.nodup_cons] at h
    by_cases hxk : x = k
    · subst hxk
      simpa [mapSet, keysOf, List.nodup_cons] using h
    · simp only [mapSet, if_neg hxk, keysOf, List.map_cons, List.nodup_cons]
      refine ⟨fun hx => ?_, ih h.2⟩
      rcases (mem_keysOf_mapSet rest k x v).1 hx with h' | h'
      · exact h.1 h'
      · exact hxk h'

theorem mapDelete_sublist {α : Type} (m : List (String × α)) (k : String) :
    (mapDelete m k).Sublist m := by
  induction m with
  | nil => simp [mapDelete]
  | cons a rest ih =>
    obtain ⟨x, y⟩ := a
    by_cases hxk : x = k
    · simpa [mapDelete, hxk] using ih.cons (x, y)
    · simpa [mapDelete, hxk] using ih.cons₂ (x, y)

theorem nodup_keysOf_mapDelete {α : Type} (m : List (String × α)) (k : String)
    (h : (keysOf m).Nodup) : (keysOf (mapDelete m k)).Nodup :=
  ((mapDelete_sublist m k).map Prod.fst).nodup h

theorem mapDelete_mapDelete {α : Type} (m : List (String × α)) (k : String) :
    mapDelete (mapDelete m k) k = mapDelete m k := by
  induction m with
  | nil => rfl
  | cons a rest ih =>
    obtain ⟨x, y⟩ := a
    by_cases hxk : x = k <;> simp [mapDelete, hxk, ih]

theorem mem_setAdd (s : List String) (p q : String) :
    q ∈ setAdd s p ↔ q ∈ s ∨ q = p := by
  induction s with
  | nil => simp [setAdd]
  | cons a rest ih =>
    by_cases hap : a = p
    · subst hap; simp [setAdd]; tauto
    · simp only [setAdd, if_neg hap, List.mem_cons, ih]; tauto

theorem nodup_setAdd (s : List String) (p : String) (h : s.Nodup) :
    (setAdd s p).Nodup := by
  induction s with
  | nil => simp [setAdd]
  | cons a rest ih =>
    simp only [List.nodup_cons] at h
    by_cases hap : a = p
    · subst hap; simpa [setAdd, List.nodup_cons] using h
    · simp only [setAdd, if_neg hap, List.nodup_cons]
      refine ⟨fun hx => ?_, ih h.2⟩
      rcases (mem_setAdd rest p a).1 hx with h' | h'
      · exact h.1 h'
      · exact hap h'

theorem mem_setDelete (s : List String) (p q : String) :
    q ∈ setDelete s p ↔ q ∈ s ∧ q ≠ p := by
  induction s with
  | nil => simp [setDelete]
  | cons a rest ih =>
    by_cases hap : a = p
    · subst hap; simp [setDelete, ih]; tauto
    · simp only [setDelete, if_neg hap, List.mem_cons, ih]
      constructor
      · rintro (e | ⟨h1, h2⟩)
        · exact ⟨Or.inl e, e ▸ hap⟩
        · exact ⟨Or.inr h1, h2⟩
      · rintro ⟨e | h1, h2⟩
        · exact Or.inl e
        · exact Or.inr ⟨h1, h2⟩

theorem setDelete_sublist (s : List String) (p : String) :
    (setDelete s p).Sublist s := by
  induction s with
  | nil => simp [setDelete]
  | cons a rest ih =>
    by_cases hap : a = p
    · simpa [setDelete, hap] using ih.cons a
    · simpa [setDelete, hap] using ih.cons₂ a

theorem nodup_setDelete (s : List String) (p : String) (h : s.Nodup) :
    (setDelete s p).Nodup :=
  (setDelete_sublist s p).nodup h

theorem setDelete_setDelete (s : List String) (p : String) :
    setDelete (setDelete s p) p = setDelete s p := by
  induction s with
  | nil => rfl
  | cons a rest ih => by_cases hap : a = p <;> simp [setDelete, hap, ih]

/-! ## String-primitive lemmas -/

theorem listLeads_nil (l : List Char) : listLeads [] l = true := by cases l <;> rfl

theorem listLeads_iff_append (p s : List Char) :
    listLeads p s = true ↔ ∃ t, s = p ++ t := by
  induction p generalizing s with
  | nil => simp [listLeads_nil]
  | cons a as ih =>
    cases s with
    | nil => simp [listLeads]
    | cons b bs =>
      simp only [listLeads, Bool.and_eq_true, decide_eq_true_eq, ih, List.cons_append,
        List.cons.injEq]
      constructor
      · rintro ⟨rfl, t, rfl⟩; exact ⟨t, rfl, rfl⟩
      · rintro ⟨t, rfl, rfl⟩; exact ⟨rfl, t, rfl⟩

theorem listLeads_total (s p q : List Char) (hp : listLeads p s = true)
    (hq : listLeads q s = true) : listLeads p q = true ∨ listLeads q p = true := by
  induction s generalizing p q with
  | nil =>
    cases p with
    | nil => exact Or.inl (listLeads_nil q)
    | cons a as => simp [listLeads] at hp
  | cons b bs ih =>
    cases p with
    | nil => exact Or.inl (listLeads_nil q)
    | cons x xs =>
      cases q with
      | nil => exact Or.inr (listLeads_nil (x :: xs))
      | cons y ys =>
        simp only [listLeads, Bool.and_eq_true, decide_eq_true_eq] at hp hq ⊢
        obtain ⟨rfl, hp⟩ := hp
        obtain ⟨rfl, hq⟩ := hq
        rcases ih xs ys hp hq with h | h
        · exact Or.inl ⟨rfl, h⟩
        · exact Or.inr ⟨rfl, h⟩

/-- If `m` starts with `X` then `m` differs from any `Y` that `X` does not lead. -/
theorem ne_of_lead {m X : String} (hx : jsStartsWith m X = true) (Y : String)
    (h : listLeads X.data Y.data = false) : m ≠ Y := by
  intro e
  subst e
  rw [jsStartsWith, h] at hx
  exact Bool.false_ne_true hx

/-- If `m` starts with `X`, and neither of `X`, `Y` leads the other, then
`m` does not start with `Y`. -/
theorem not_lead_of_lead {m X Y : String} (hx : jsStartsWith m X = true)
    (hxy : listLeads X.data Y.data = false) (hyx : listLeads Y.data X.data = false) :
    ¬jsStartsWith m Y = true := by
  intro hy
  rcases listLeads_total m.data X.data Y.data hx hy with h | h
  · rw [hxy] at h; exact Bool.false_ne_true h
  · rw [hyx] at h; exact Bool.false_ne_true h

theorem jsWhite_lowerChar (c : Char) : jsWhite (lowerChar c) = jsWhite c := by
  unfold lowerChar
  split <;> rfl

theorem lowerChar_idem (c : Char) : lowerChar (lowerChar c) = lowerChar c := by
  have h : lowerChar c = c ∨ lowerChar c ∈
      ['a','b','c','d','e','f','g','h','i','j','k','l','m',
       'n','o','p','q','r','s','t','u','v','w','x','y','z'] := by
    unfold lowerChar
    split <;> simp
  rcases h with h | h
  · rw [h, h]
  · generalize lowerChar c = x at h ⊢
    fin_cases h <;> rfl

theorem head?_dropWhile_false {l : List Char} {c : Char}
    (h : (l.dropWhile jsWhite).head? = some c) : jsWhite c = false := by
  have hm := List.head?_dropWhile_not jsWhite l
  rw [h] at hm
  exact hm

theorem dropWhile_eq_self_of_head {l : List Char}
    (h : ∀ c, l.head? = some c → jsWhite c = false) : l.dropWhile jsWhite = l := by
  cases l with
  | nil => rfl
  | cons a t => exact List.dropWhile_cons_of_neg (by simp [h a rfl])

theorem getLast?_trimL {l : List Char} {c : Char}
    (h : (trimL l).getLast? = some c) : jsWhite c = false := by
  unfold trimL at h
  rw [List.getLast?_reverse] at h
  exact head?_dropWhile_false h

theorem head?_trimL {l : List Char} {c : Char}
    (h : (trimL l).head? = some c) : jsWhite c = false := by
  unfold trimL at h
  rw [List.head?_reverse] at h
  have hr : ((l.dropWhile jsWhite).reverse.dropWhile jsWhite).getLast? = some c := h
  have hne : (l.dropWhile jsWhite).reverse.dropWhile jsWhite ≠ [] := by
    intro he; rw [he] at hr; exact Option.noConfusion hr
  have hsplit := List.takeWhile_append_dropWhile jsWhite (l.dropWhile jsWhite).reverse
  have hlast : (l.dropWhile jsWhite).reverse.getLast? = some c := by
    rw [← hsplit, List.getLast?_append, hr]; rfl
  rw [List.getLast?_reverse] at hlast
  exact head?_dropWhile_false hlast

theorem dropWhile_trimL (l : List Char) : (trimL l).dropWhile jsWhite = trimL l :=
  dropWhile_eq_self_of_head (fun _ h => head?_trimL h)

theorem dropWhile_dropWhile (l : List Char) :
    (l.dropWhile jsWhite).dropWhile jsWhite = l.dropWhile jsWhite :=
  dropWhile_eq_self_of_head (fun _ h => head?_dropWhile_false h)

theorem trimL_idem (l : List Char) : trimL (trimL l) = trimL l := by
  conv_lhs => rw [trimL]
  rw [dropWhile_trimL]
  show (((((l.dropWhile jsWhite).reverse.dropWhile jsWhite).reverse).reverse).dropWhile
    jsWhite).reverse = trimL l
  rw [List.reverse_reverse, dropWhile_dropWhile]
  rfl

theorem trimL_map_lowerChar (l : List Char) :
    trimL (l.map lowerChar) = (trimL l).map lowerChar := by
  have hcomp : (jsWhite ∘ lowerChar) = jsWhite := funext (fun c => jsWhite_lowerChar c)
  unfold trimL
  rw [List.dropWhile_map, hcomp, ← List.map_reverse, List.dropWhile_map, hcomp,
    ← List.map_reverse]

theorem map_lowerChar_idem (l : List Char) :
    (l.map lowerChar).map lowerChar = l.map lowerChar := by
  rw [List.map_map]
  exact List.map_congr_left (fun a _ => lowerChar_idem a)

theorem jsNormMsg_idem (body : Option String) :
    jsNormMsg (some (jsNormMsg body)) = jsNormMsg body := by
  unfold jsNormMsg jsToLower jsTrim
  apply congrArg String.mk
  show ((String.mk (trimL ((trimL (body.getD "").data).map lowerChar))).data).map lowerChar
    = (trimL (body.getD "").data).map lowerChar
  show (trimL ((trimL (body.getD "").data).map lowerChar)).map lowerChar
    = (trimL (body.getD "").data).map lowerChar
  rw [trimL_map_lowerChar, trimL_idem, map_lowerChar_idem]

theorem trimL_ne_nil_of_getLast {t : List Char} {c : Char}
    (h : t.getLast? = some c) (hc : jsWhite c = false) : trimL t ≠ [] := by
  intro he
  unfold trimL at he
  rw [List.reverse_eq_nil_iff, List.dropWhile_eq_nil_iff] at he
  by_cases hA : t.dropWhile jsWhite = []
  · rw [List.dropWhile_eq_nil_iff] at hA
    have h1 := hA c (List.mem_of_getLast?_eq_some h)
    rw [hc] at h1
    exact Bool.false_ne_true h1
  · have hsplit := List.takeWhile_append_dropWhile jsWhite t
    have hiso : (t.dropWhile jsWhite).getLast?.isSome = true := by
      rw [List.getLast?_isSome]; exact hA
    obtain ⟨c', hc'⟩ := Option.isSome_iff_exists.1 hiso
    have : t.getLast? = some c' := by rw [← hsplit, List.getLast?_append, hc']; rfl
    rw [h] at this
    obtain rfl : c = c' := by injection this
    have hmem : c ∈ (t.dropWhile jsWhite).reverse :=
      List.mem_reverse.2 (List.mem_of_getLast?_eq_some hc')
    have h2 := he c hmem
    rw [hc] at h2
    exact Bool.false_ne_true h2

/-- A normalized message that matches the `log ` prefix necessarily has a
non-whitespace remainder: normalization already removed trailing
whitespace, so the empty-activity error branch (line 177) is unreachable. -/
theorem normMsg_log_remainder (body : Option String)
    (h : jsStartsWith (jsNormMsg body) "log " = true) :
    jsTrim (jsDrop 4 (jsNormMsg body)) ≠ "" := by
  obtain ⟨t, ht⟩ := (listLeads_iff_append "log ".data (jsNormMsg body).data).1 h
  have hdata : (jsNormMsg body).data = (trimL (body.getD "").data).map lowerChar := rfl
  have hne : (jsNormMsg body).data ≠ [] := by
    rw [ht]; simp
  have hlast : ∀ c, (jsNormMsg body).data.getLast? = some c → jsWhite c = false := by
    intro c hc
    rw [hdata, List.getLast?_map] at hc
    obtain ⟨c0, hc0, rfl⟩ := Option.map_eq_some'.1 hc
    rw [jsWhite_lowerChar]
    exact getLast?_trimL hc0
  have htne : t ≠ [] := by
    rintro rfl
    have : (jsNormMsg body).data.getLast? = some ' ' := by rw [ht]; rfl
    have := hlast ' ' this
    exact absurd this (by decide)
  have hlt : t.getLast? = some ((jsNormMsg body).data.getLast?.getD ' ') := by
    rw [ht, List.getLast?_append]
    cases hgt : t.getLast? with
    | none => exact absurd (List.getLast?_eq_none_iff.1 hgt) htne
    | some x => simp [hgt, ht, List.getLast?_append]
  have hdrop : (jsDrop 4 (jsNormMsg body)).data = t := by
    show (jsNormMsg body).data.drop 4 = t
    rw [ht]
    exact List.drop_left' (by rfl)
  intro he
  have hnil : trimL t = [] := by
    have : (jsTrim (jsDrop 4 (jsNormMsg body))).data = ("" : String).data :=
      congrArg String.data he
    rw [show (jsTrim (jsDrop 4 (jsNormMsg body))).data = trimL (jsDrop 4 (jsNormMsg body)).data
        from rfl, hdrop] at this
    exact this
  rcases hgl : (jsNormMsg body).data.getLast? with _ | c
  · rw [List.getLast?_eq_none_iff] at hgl
    exact hne hgl
  · refine trimL_ne_nil_of_getLast ?_ (hlast c hgl) hnil
    rw [hlt, hgl]
    rfl

/-! ## Dispatcher branch equations -/

theorem weatherBranch_dir (d : Directory) (m ph : String)
    (wO : String → Option OwmResponse) (aO : Option String)
    (tO : String → String → Option String) :
    (weatherBranch d m ph wO aO tO).dir = d := by
  unfold weatherBranch
  cases hc : resolveCity d m ph with
  | none => rfl
  | some c =>
    by_cases hce : c = ""
    · simp [hce, mkReply]
    · simp only [if_neg hce]
      cases hw : getWeather (wO c) <;> rfl

theorem weatherBranch_status (d : Directory) (m ph : String)
    (wO : String → Option OwmResponse) (aO : Option String)
    (tO : String → String → Option String) :
    (weatherBranch d m ph wO aO tO).status = 200 := by
  unfold weatherBranch
  cases hc : resolveCity d m ph with
  | none => rfl
  | some c =>
    by_cases hce : c = ""
    · simp [hce, mkReply]
    · simp only [if_neg hce]
      cases hw : getWeather (wO c) <;> rfl

theorem dispatchKnown_eq_weatherBranch (d : Directory) (m ph : String)
    (wO : String → Option OwmResponse) (aO : Option String)
    (tO : String → String → Option String) (lf : String → String) (now : String)
    (hw : jsStartsWith m "weather" = true) :
    dispatchKnown d m ph wO aO tO lf now = weatherBranch d m ph wO aO tO := by
  have h1 : ¬(m = "status" ∨ m = "/status" ∨ m = "my status") := by
    rintro (e | e | e) <;> exact ne_of_lead hw _ (by decide) e
  have h2 : ¬(m = "1" ∨ m = "2" ∨ m = "3") := by
    rintro (e | e | e) <;> exact ne_of_lead hw _ (by decide) e
  have h3 : ¬(jsStartsWith m "log " = true) := not_lead_of_lead hw (by decide) (by decide)
  have h4 : m ≠ "view log" := ne_of_lead hw _ (by decide)
  have h5 : m ≠ "clear log" := ne_of_lead hw _ (by decide)
  have h6 : ¬(jsStartsWith m "subscribe" = true) := not_lead_of_lead hw (by decide) (by decide)
  have h7 : m ≠ "unsubscribe" := ne_of_lead hw _ (by decide)
  unfold dispatchKnown
  rw [if_neg h1, if_neg h2, if_neg h3, if_neg h4, if_neg h5, if_neg h6, if_neg h7, if_pos hw]

theorem dispatchKnown_eq_subscribe (d : Directory) (m ph : String)
    (wO : String → Option OwmResponse) (aO : Option String)
    (tO : String → String → Option String) (lf : String → String) (now : String)
    (hs : jsStartsWith m "subscribe" = true) :
    dispatchKnown d m ph wO aO tO lf now =
      (if jsTrim (jsEraseFirst m "subscribe") = "" then mkReply d ph cityUsageText tO
       else mkReply (doSubscribe d ph (jsTrim (jsEraseFirst m "subscribe"))) ph
         (subOkText (jsTrim (jsEraseFirst m "subscribe"))) tO) := by
  have h1 : ¬(m = "status" ∨ m = "/status" ∨ m = "my status") := by
    rintro (e | e | e) <;> exact ne_of_lead hs _ (by decide) e
  have h2 : ¬(m = "1" ∨ m = "2" ∨ m = "3") := by
    rintro (e | e | e) <;> exact ne_of_lead hs _ (by decide) e
  have h3 : ¬(jsStartsWith m "log " = true) := not_lead_of_lead hs (by decide) (by decide)
  have h4 : m ≠ "view log" := ne_of_lead hs _ (by decide)
  have h5 : m ≠ "clear log" := ne_of_lead hs _ (by decide)
  unfold dispatchKnown
  rw [if_neg h1, if_neg h2, if_neg h3, if_neg h4, if_neg h5, if_pos hs]

theorem dispatchKnown_eq_log (d : Directory) (m ph : String)
    (wO : String → Option OwmResponse) (aO : Option String)
    (tO : String → String → Option String) (lf : String → String) (now : String)
    (hl : jsStartsWith m "log " = true) :
    dispatchKnown d m ph wO aO tO lf now =
      (if jsTrim (jsDrop 4 m) = "" then mkReply d ph logErrText tO
       else mkReply (pushActivity d ph (jsTrim (jsDrop 4 m)) now) ph
         (logOkText (jsTrim (jsDrop 4 m))) tO) := by
  have h1 : ¬(m = "status" ∨ m = "/status" ∨ m = "my status") := by
    rintro (e | e | e) <;> exact ne_of_lead hl _ (by decide) e
  have h2 : ¬(m = "1" ∨ m = "2" ∨ m = "3") := by
    rintro (e | e | e) <;> exact ne_of_lead hl _ (by decide) e
  unfold dispatchKnown
  rw [if_neg h1, if_neg h2, if_pos hl]

theorem dispatchKnown_unsub (d : Directory) (ph : String)
    (wO : String → Option OwmResponse) (aO : Option String)
    (tO : String → String → Option String) (lf : String → String) (now : String) :
    dispatchKnown d "unsubscribe" ph wO aO tO lf now =
      mkReply (doUnsubscribe d ph) ph unsubText tO := by
  rfl

theorem dispatchKnown_status200 (d : Directory) (m ph : String)
    (wO : String → Option OwmResponse) (aO : Option String)
    (tO : String → String → Option String) (lf : String → String) (now : String) :
    (dispatchKnown d m ph wO aO tO lf now).status = 200 := by
  unfold dispatchKnown
  split_ifs <;> first | rfl | exact weatherBranch_status d m ph wO aO tO

theorem webhook_missing (d : Directory) (body fromRaw : Option String)
    (wO : String → Option OwmResponse) (aO : Option String)
    (tO : String → String → Option String) (lf : String → String) (now : String)
    (h : jsNormPhone fromRaw = "") :
    webhook d body fromRaw wO aO tO lf now =
      { dir := d, sends := [], status := 400, composed := none } := by
  unfold webhook
  rw [if_pos h]

theorem webhook_first (d : Directory) (body fromRaw : Option String)
    (wO : String → Option OwmResponse) (aO : Option String)
    (tO : String → String → Option String) (lf : String → String) (now : String)
    (hph : jsNormPhone fromRaw ≠ "")
    (hpref : mapGet d.userPreferences (jsNormPhone fromRaw) = none) :
    webhook d body fromRaw wO aO tO lf now =
      { dir := { d with userPreferences := mapSet d.userPreferences (jsNormPhone fromRaw) "en" },
        sends := [(jsNormPhone fromRaw, welcomeText)], status := 200, composed := none } := by
  unfold webhook
  rw [if_neg hph, if_pos (by rw [hpref]; rfl)]

theorem webhook_known (d : Directory) (body fromRaw : Option String)
    (wO : String → Option OwmResponse) (aO : Option String)
    (tO : String → String → Option String) (lf : String → String) (now : String)
    (hph : jsNormPhone fromRaw ≠ "")
    (hpref : (mapGet d.userPreferences (jsNormPhone fromRaw)).isSome = true) :
    webhook d body fromRaw wO aO tO lf now =
      dispatchKnown d (jsNormMsg body) (jsNormPhone fromRaw) wO aO tO lf now := by
  unfold webhook
  rw [if_neg hph, if_neg (by
    intro h
    rw [Option.isNone_iff_eq_none] at h
    rw [h] at hpref
    exact Bool.false_ne_true hpref)]

/-! ## Directory invariants -/

/-- The User Directory invariant: each store has at most one entry per
user identifier, every subscriber has a stored location, and every
subscriber has a preference record (subscription is only reachable after
first contact). -/
def InvFull (d : Directory) : Prop :=
  d.subscribers.Nodup ∧ (keysOf d.userLocations).Nodup ∧
  (keysOf d.userPreferences).Nodup ∧ (keysOf d.userActivities).Nodup ∧
  (∀ p ∈ d.subscribers, (mapGet d.userLocations p).isSome = true) ∧
  (∀ p ∈ d.subscribers, (mapGet d.userPreferences p).isSome = true)

theorem invFull_prefSet {d : Directory} (h : InvFull d) (ph v : String) :
    InvFull { d with userPreferences := mapSet d.userPreferences ph v } := by
  obtain ⟨hs, hl, hp, ha, hsl, hsp⟩ := h
  refine ⟨hs, hl, nodup_keysOf_mapSet _ _ _ hp, ha, hsl, fun p hmem => ?_⟩
  rw [mapGet_mapSet]
  by_cases hpph : p = ph
  · rw [if_pos hpph]; rfl
  · rw [if_neg hpph]; exact hsp p hmem

theorem invFull_actSet {d : Directory} (h : InvFull d) (ph : String) (l : List Activity) :
    InvFull { d with userActivities := mapSet d.userActivities ph l } := by
  obtain ⟨hs, hl, hp, ha, hsl, hsp⟩ := h
  exact ⟨hs, hl, hp, nodup_keysOf_mapSet _ _ _ ha, hsl, hsp⟩

theorem invFull_actDelete {d : Directory} (h : InvFull d) (ph : String) :
    InvFull { d with userActivities := mapDelete d.userActivities ph } := by
  obtain ⟨hs, hl, hp, ha, hsl, hsp⟩ := h
  exact ⟨hs, hl, hp, nodup_keysOf_mapDelete _ _ ha, hsl, hsp⟩

theorem invFull_doSubscribe {d : Directory} (h : InvFull d) (ph : String)
    (hpref : (mapGet d.userPreferences ph).isSome = true) (city : String) :
    InvFull (doSubscribe d ph city) := by
  obtain ⟨hs, hl, hp, ha, hsl, hsp⟩ := h
  refine ⟨nodup_setAdd _ _ hs, nodup_keysOf_mapSet _ _ _ hl, hp, ha,
    fun p hmem => ?_, fun p hmem => ?_⟩
  · show (mapGet (mapSet d.userLocations ph city) p).isSome = true
    rw [mapGet_mapSet]
    by_cases hpph : p = ph
    · rw [if_pos hpph]; rfl
    · rw [if_neg hpph]
      rcases (mem_setAdd d.subscribers ph p).1 hmem with hin | he
      · exact hsl p hin
      · exact absurd he hpph
  · rcases (mem_setAdd d.subscribers ph p).1 hmem with hin | he
    · exact hsp p hin
    · rw [he]; exact hpref

theorem invFull_doUnsubscribe {d : Directory} (h : InvFull d) (ph : String) :
    InvFull (doUnsubscribe d ph) := by
  obtain ⟨hs, hl, hp, ha, hsl, hsp⟩ := h
  refine ⟨nodup_setDelete _ _ hs, nodup_keysOf_mapDelete _ _ hl, hp, ha,
    fun p hmem => ?_, fun p hmem => ?_⟩
  · obtain ⟨hin, hne⟩ := (mem_setDelete d.subscribers ph p).1 hmem
    show (mapGet (mapDelete d.userLocations ph) p).isSome = true
    rw [mapGet_mapDelete, if_neg hne]
    exact hsl p hin
  · exact hsp p ((mem_setDelete d.subscribers ph p).1 hmem).1

theorem invFull_dispatchKnown {d : Directory} (m ph : String)
    (wO : String → Option OwmResponse) (aO : Option String)
    (tO : String → String → Option String) (lf : String → String) (now : String)
    (h : InvFull d) (hpref : (mapGet d.userPreferences ph).isSome = true) :
    InvFull (dispatchKnown d m ph wO aO tO lf now).dir := by
  unfold dispatchKnown
  split_ifs <;>
    first
      | exact h
      | (rw [weatherBranch_dir]; exact h)
      | exact invFull_prefSet h _ _
      | exact invFull_actSet h _ _
      | exact invFull_actDelete h _
      | exact invFull_doSubscribe h _ hpref _
      | exact invFull_doUnsubscribe h _

theorem invFull_webhook {d : Directory} (body fromRaw : Option String)
    (wO : String → Option OwmResponse) (aO : Option String)
    (tO : String → String → Option String) (lf : String → String) (now : String)
    (h : InvFull d) : InvFull (webhook d body fromRaw wO aO tO lf now).dir := by
  by_cases hph : jsNormPhone fromRaw = ""
  · rw [webhook_missing d body fromRaw wO aO tO lf now hph]; exact h
  · cases hpref : mapGet d.userPreferences (jsNormPhone fromRaw) with
    | none =>
      rw [webhook_first d body fromRaw wO aO tO lf now hph hpref]
      exact invFull_prefSet h _ _
    | some v =>
      rw [webhook_known d body fromRaw wO aO tO lf now hph (by rw [hpref]; rfl)]
      exact invFull_dispatchKnown _ _ wO aO tO lf now h (by rw [hpref]; rfl)

theorem invFull_emptyDir : InvFull emptyDir := by
  refine ⟨List.nodup_nil, List.nodup_nil, List.nodup_nil, List.nodup_nil, ?_, ?_⟩ <;>
    intro p hmem <;> exact absurd hmem (List.not_mem_nil p)

theorem reachable_invFull {d : Directory} (h : Reachable d) : InvFull d := by
  induction h with
  | start => exact invFull_emptyDir
  | step body fromRaw wO aO tO lf now _ ih =>
    exact invFull_webhook body fromRaw wO aO tO lf now ih

/-! ## The alert-threshold policy as the spec states it -/

/-- One alert rule of the spec's alert-threshold policy table. -/
structure AlertRule where
  fires : OwmResponse → Bool
  text : OwmResponse → String

/-- The spec's alert-threshold policy, in its fixed evaluation order:
heat (temperature > 35°C), cold (temperature < 5°C), wind (wind speed
> 10 m/s), rain (condition category "Rain"), storm (condition category
"Thunderstorm"). -/
def specAlertRules : List AlertRule :=
  [ ⟨fun w => decide (w.temp > 35), fun w => heatMsg w.temp⟩,
    ⟨fun w => decide (w.temp < 5), fun w => coldMsg w.temp⟩,
    ⟨fun w => match w.wind with | some s => decide (s > 10) | none => false,
     fun w => windMsg (w.wind.getD 0)⟩,
    ⟨fun w => match w.cond with | some cd => decide (cd.1 = "Rain") | none => false,
     fun w => rainMsg ((w.cond.map Prod.snd).getD "")⟩,
    ⟨fun w => match w.cond with | some cd => decide (cd.1 = "Thunderstorm") | none => false,
     fun w => stormMsg ((w.cond.map Prod.snd).getD "")⟩ ]

/-- The alert list the spec describes: every rule that fires, in the
fixed rule order, and nothing else. -/
def specAlerts (w : OwmResponse) : List String :=
  (specAlertRules.filter (fun r => r.fires w)).map (fun r => r.text w)

theorem mkAlerts_eq_specAlerts (w : OwmResponse) : mkAlerts w = specAlerts w := by
  obtain ⟨n, t, wind, cond⟩ := w
  rcases wind with _ | s
  · rcases cond with _ | ⟨cm, cdesc⟩
    · by_cases h1 : t > 35 <;> by_cases h2 : t < 5 <;>
        simp [mkAlerts, specAlerts, specAlertRules, h1, h2]
    · by_cases h1 : t > 35 <;> by_cases h2 : t < 5 <;>
        by_cases h4 : cm = "Rain" <;> by_cases h5 : cm = "Thunderstorm" <;>
        first
          | (subst h4; exact absurd h5 (by decide))
          | simp [mkAlerts, specAlerts, specAlertRules, h1, h2, h4, h5]
  · rcases cond with _ | ⟨cm, cdesc⟩
    · by_cases h1 : t > 35 <;> by_cases h2 : t < 5 <;> by_cases h3 : s > 10 <;>
        simp [mkAlerts, specAlerts, specAlertRules, h1, h2, h3]
    · by_cases h1 : t > 35 <;> by_cases h2 : t < 5 <;> by_cases h3 : s > 10 <;>
        by_cases h4 : cm = "Rain" <;> by_cases h5 : cm = "Thunderstorm" <;>
        first
          | (subst h4; exact absurd h5 (by decide))
          | simp [mkAlerts, specAlerts, specAlertRules, h1, h2, h3, h4, h5]

/-! ## Alert-sweep lemmas -/

/-- What the sweep loop body would send for one `(phone, city)` entry:
`none` when the user is not subscribed, the lookup fails, or no alert
fires. -/
def sendFor (subs : List String) (wO : String → Option OwmResponse)
    (pc : String × String) : Option (String × String) :=
  if subs.contains pc.1 then
    match getWeather (wO pc.2) with
    | some w => if w.alerts.length > 0 then some (pc.1, alertText w) else none
    | none => none
  else none

theorem sweep_eq_filterMap (subs : List String) (wO : String → Option OwmResponse)
    (locs : List (String × String)) :
    sweep subs wO locs = locs.filterMap (sendFor subs wO) := by
  induction locs with
  | nil => rfl
  | cons pc rest ih =>
    obtain ⟨ph, city⟩ := pc
    by_cases hsub : ph ∈ subs
    · cases hw : getWeather (wO city) with
      | none => simp [sweep, sendFor, List.filterMap_cons, hsub, hw, ih]
      | some w =>
        by_cases halert : w.alerts.length > 0 <;>
          simp [sweep, sendFor, List.filterMap_cons, hsub, hw, halert, ih]
    · simp [sweep, sendFor, List.filterMap_cons, hsub, ih]

/-! ## Claim theorems -/

/-- Claim C2: for every weather lookup result, the derived alert list is
computed by evaluating the five threshold rules in the fixed order heat
(temperature > 35°C), cold (temperature < 5°C), wind (wind speed >
10 m/s), rain (condition category "Rain"), storm (condition category
"Thunderstorm"), including every rule that fires and no other entries —
i.e. the result's alert list equals the filter of the spec's ordered
rule table by the rules that fire.  The concrete instance (40°C, 15 m/s,
"Rain" → exactly heat, wind, rain in that order) is the witness. -/
theorem C2_alert_policy (w : OwmResponse) (r : WeatherResult)
    (h : getWeather (some w) = some r) : r.alerts = specAlerts w := by
  obtain ⟨n, t, wind, cond⟩ := w
  cases cond with
  | none => exact Option.noConfusion h
  | some cd =>
    injection h with h2
    subst h2
    show mkAlerts ⟨n, t, wind, some cd⟩ = specAlerts ⟨n, t, wind, some cd⟩
    exact mkAlerts_eq_specAlerts _

/-- Witness for C2 at temperature 40°C, wind 15 m/s, condition "Rain":
the lookup succeeds and the alert list is exactly heat, wind, rain in
that order. -/
theorem C2_alert_policy_witness :
    getWeather (some ⟨"Pune", 40, some 15, some ("Rain", "moderate rain")⟩) =
      some ⟨"Pune", 40, "moderate rain",
        [heatMsg 40, windMsg 15, rainMsg "moderate rain"], 15⟩ ∧
    (⟨"Pune", 40, "moderate rain",
        [heatMsg 40, windMsg 15, rainMsg "moderate rain"], 15⟩ : WeatherResult).alerts =
      specAlerts ⟨"Pune", 40, some 15, some ("Rain", "moderate rain")⟩ := by
  constructor
  · decide
  · exact C2_alert_policy _ _ (by decide)

/-- Claim C3: for every weather-command request whose weather provider
call fails, the whole request behaves as `replyAndEnd` with the single
fixed could-not-fetch message: the directory is unchanged, exactly one
outbound reply carries that fixed text, and the advisory provider is
never invoked (the outcome is identical for every advisory-provider
oracle `aO2`). -/
theorem C3_weather_provider_failure (d : Directory) (body fromRaw : Option String)
    (wO : String → Option OwmResponse) (aO aO2 : Option String)
    (tO : String → String → Option String) (lf : String → String) (now : String)
    (c : String)
    (hph : jsNormPhone fromRaw ≠ "")
    (hpref : (mapGet d.userPreferences (jsNormPhone fromRaw)).isSome = true)
    (hw : jsStartsWith (jsNormMsg body) "weather" = true)
    (hcity : resolveCity d (jsNormMsg body) (jsNormPhone fromRaw) = some c)
    (hcne : c ≠ "") (hfail : wO c = none) :
    webhook d body fromRaw wO aO tO lf now =
      mkReply d (jsNormPhone fromRaw) weatherFailText tO ∧
    (webhook d body fromRaw wO aO tO lf now).dir = d ∧
    webhook d body fromRaw wO aO tO lf now = webhook d body fromRaw wO aO2 tO lf now := by
  have key : ∀ a : Option String,
      webhook d body fromRaw wO a tO lf now =
        mkReply d (jsNormPhone fromRaw) weatherFailText tO := by
    intro a
    rw [webhook_known d body fromRaw wO a tO lf now hph hpref,
        dispatchKnown_eq_weatherBranch d (jsNormMsg body) (jsNormPhone fromRaw) wO a tO lf now hw]
    unfold weatherBranch
    rw [hcity]
    show (if c = "" then _ else _) = _
    rw [if_neg hcne, hfail]
    rfl
  exact ⟨key aO, by rw [key aO]; rfl, by rw [key aO, key aO2]⟩

/-- Witness for C3: a known subscriber asks `weather pune`, the provider
call fails, and the reply is the fixed failure text with the directory
untouched. -/
theorem C3_weather_provider_failure_witness :
    webhook ⟨[], [], [("+15551234567", "en")], []⟩ (some "weather pune")
        (some "whatsapp:+15551234567") (fun _ => none) none (fun _ _ => none)
        (fun s => s) "2026-01-01T00:00:00Z" =
      mkReply ⟨[], [], [("+15551234567", "en")], []⟩ "+15551234567" weatherFailText
        (fun _ _ => none) ∧
    (webhook ⟨[], [], [("+15551234567", "en")], []⟩ (some "weather pune")
        (some "whatsapp:+15551234567") (fun _ => none) none (fun _ _ => none)
        (fun s => s) "2026-01-01T00:00:00Z").dir = ⟨[], [], [("+15551234567", "en")], []⟩ ∧
    webhook ⟨[], [], [("+15551234567", "en")], []⟩ (some "weather pune")
        (some "whatsapp:+15551234567") (fun _ => none) none (fun _ _ => none)
        (fun s => s) "2026-01-01T00:00:00Z" =
      webhook ⟨[], [], [("+15551234567", "en")], []⟩ (some "weather pune")
        (some "whatsapp:+15551234567") (fun _ => none) (some "irrelevant advice")
        (fun _ _ => none) (fun s => s) "2026-01-01T00:00:00Z" :=
  C3_weather_provider_failure ⟨[], [], [("+15551234567", "en")], []⟩ (some "weather pune")
    (some "whatsapp:+15551234567") (fun _ => none) none (some "irrelevant advice")
    (fun _ _ => none) (fun s => s) "2026-01-01T00:00:00Z" "pune"
    (by decide) (by decide) (by decide) (by decide) (by decide) rfl

/-- Claim C4: for every weather-command request whose lookup succeeds
but whose advisory provider call fails (`adviceOracle = none`), the
reply is still the composed weather section followed by the fixed
fallback tips sentence, the request is acknowledged with 200, and the
directory is unchanged — the failure is not treated as an error. -/
theorem C4_advice_failure (d : Directory) (body fromRaw : Option String)
    (wO : String → Option OwmResponse)
    (tO : String → String → Option String) (lf : String → String) (now : String)
    (c : String) (w : WeatherResult)
    (hph : jsNormPhone fromRaw ≠ "")
    (hpref : (mapGet d.userPreferences (jsNormPhone fromRaw)).isSome = true)
    (hw : jsStartsWith (jsNormMsg body) "weather" = true)
    (hcity : resolveCity d (jsNormMsg body) (jsNormPhone fromRaw) = some c)
    (hcne : c ≠ "") (hok : getWeather (wO c) = some w) :
    webhook d body fromRaw wO none tO lf now =
      mkReply d (jsNormPhone fromRaw)
        (weatherBaseText w ++ "\n\n🌱 Farming Tips:\n" ++
          "Could not fetch AI advice right now.") tO ∧
    (webhook d body fromRaw wO none tO lf now).status = 200 ∧
    (webhook d body fromRaw wO none tO lf now).dir = d := by
  have key : webhook d body fromRaw wO none tO lf now =
      mkReply d (jsNormPhone fromRaw)
        (weatherBaseText w ++ "\n\n🌱 Farming Tips:\n" ++
          "Could not fetch AI advice right now.") tO := by
    rw [webhook_known d body fromRaw wO none tO lf now hph hpref,
        dispatchKnown_eq_weatherBranch d (jsNormMsg body) (jsNormPhone fromRaw) wO none tO
          lf now hw]
    unfold weatherBranch
    rw [hcity]
    show (if c = "" then _ else _) = _
    rw [if_neg hcne, hok]
    show mkReply d (jsNormPhone fromRaw)
      (weatherReplyText w (getCropAdviceAI none)) tO = _
    unfold weatherReplyText getCropAdviceAI
    rw [if_neg (by decide : ¬((none : Option String).getD
      "Could not fetch AI advice right now." = ""))]
    rfl
  exact ⟨key, by rw [key]; rfl, by rw [key]; rfl⟩

/-- Witness for C4: the lookup succeeds for `pune` with a 40°C/15 m/s
rain response, Gemini fails, and the reply is the weather section plus
the fixed fallback tips line. -/
theorem C4_advice_failure_witness :
    webhook ⟨[], [], [("+15551234567", "en")], []⟩ (some "weather pune")
        (some "whatsapp:+15551234567")
        (fun _ => some ⟨"Pune", 40, some 15, some ("Rain", "moderate rain")⟩) none
        (fun _ _ => none) (fun s => s) "2026-01-01T00:00:00Z" =
      mkReply ⟨[], [], [("+15551234567", "en")], []⟩ "+15551234567"
        (weatherBaseText ⟨"Pune", 40, "moderate rain",
          [heatMsg 40, windMsg 15, rainMsg "moderate rain"], 15⟩ ++
          "\n\n🌱 Farming Tips:\n" ++ "Could not fetch AI advice right now.")
        (fun _ _ => none) ∧
    (webhook ⟨[], [], [("+15551234567", "en")], []⟩ (some "weather pune")
        (some "whatsapp:+15551234567")
        (fun _ => some ⟨"Pune", 40, some 15, some ("Rain", "moderate rain")⟩) none
        (fun _ _ => none) (fun s => s) "2026-01-01T00:00:00Z").status = 200 ∧
    (webhook ⟨[], [], [("+15551234567", "en")], []⟩ (some "weather pune")
        (some "whatsapp:+15551234567")
        (fun _ => some ⟨"Pune", 40, some 15, some ("Rain", "moderate rain")⟩) none
        (fun _ _ => none) (fun s => s) "2026-01-01T00:00:00Z").dir =
      ⟨[], [], [("+15551234567", "en")], []⟩ :=
  C4_advice_failure ⟨[], [], [("+15551234567", "en")], []⟩ (some "weather pune")
    (some "whatsapp:+15551234567")
    (fun _ => some ⟨"Pune", 40, some 15, some ("Rain", "moderate rain")⟩)
    (fun _ _ => none) (fun s => s) "2026-01-01T00:00:00Z" "pune"
    ⟨"Pune", 40, "moderate rain", [heatMsg 40, windMsg 15, rainMsg "moderate rain"], 15⟩
    (by decide) (by decide) (by decide) (by decide) (by decide) (by decide)

theorem doUnsubscribe_idem (d : Directory) (ph : String) :
    doUnsubscribe (doUnsubscribe d ph) ph = doUnsubscribe d ph := by
  obtain ⟨s, l, p, a⟩ := d
  unfold doUnsubscribe
  simp [setDelete_setDelete, mapDelete_mapDelete]

/-- Claim C5: for a sender with no existing record, the first inbound
message — whatever its content (`body` is arbitrary, and the outcome
equals the outcome for any other content `body2`) — creates exactly one
record with language `en` and subscribed = false, sends exactly the
welcome/language-menu message, and performs no other processing: the
result is exactly the first-contact record, with subscribers, locations
and activity log untouched. -/
theorem C5_first_contact (d : Directory) (body body2 fromRaw : Option String)
    (wO : String → Option OwmResponse) (aO : Option String)
    (tO : String → String → Option String) (lf : String → String) (now : String)
    (h : Reachable d)
    (hph : jsNormPhone fromRaw ≠ "")
    (hnew : mapGet d.userPreferences (jsNormPhone fromRaw) = none) :
    webhook d body fromRaw wO aO tO lf now =
      { dir := { d with userPreferences := mapSet d.userPreferences (jsNormPhone fromRaw) "en" },
        sends := [(jsNormPhone fromRaw, welcomeText)], status := 200, composed := none } ∧
    mapGet (webhook d body fromRaw wO aO tO lf now).dir.userPreferences
      (jsNormPhone fromRaw) = some "en" ∧
    jsNormPhone fromRaw ∉ (webhook d body fromRaw wO aO tO lf now).dir.subscribers ∧
    (webhook d body fromRaw wO aO tO lf now).dir.subscribers = d.subscribers ∧
    (webhook d body fromRaw wO aO tO lf now).dir.userLocations = d.userLocations ∧
    (webhook d body fromRaw wO aO tO lf now).dir.userActivities = d.userActivities ∧
    webhook d body fromRaw wO aO tO lf now = webhook d body2 fromRaw wO aO tO lf now := by
  have he := webhook_first d body fromRaw wO aO tO lf now hph hnew
  have he2 := webhook_first d body2 fromRaw wO aO tO lf now hph hnew
  refine ⟨he, ?_, ?_, ?_, ?_, ?_, ?_⟩
  · rw [he]
    show mapGet (mapSet d.userPreferences (jsNormPhone fromRaw) "en")
      (jsNormPhone fromRaw) = some "en"
    rw [mapGet_mapSet, if_pos rfl]
  · rw [he]
    intro hmem
    have hsome := (reachable_invFull h).2.2.2.2.2 (jsNormPhone fromRaw) hmem
    rw [hnew] at hsome
    exact Bool.false_ne_true hsome
  · rw [he]
  · rw [he]
  · rw [he]
  · rw [he, he2]

/-- Witness for C5: the very first message (arbitrary text "hello") from
a fresh sender yields exactly the welcome reply and an `en`,
unsubscribed record. -/
theorem C5_first_contact_witness :
    Reachable emptyDir ∧
    webhook emptyDir (some "hello") (some "whatsapp:+15551234567") (fun _ => none) none
        (fun _ _ => none) (fun s => s) "2026-01-01T00:00:00Z" =
      { dir := { emptyDir with
          userPreferences := mapSet emptyDir.userPreferences "+15551234567" "en" },
        sends := [("+15551234567", welcomeText)], status := 200, composed := none } :=
  ⟨Reachable.start,
    (C5_first_contact emptyDir (some "hello") (some "subscribe pune")
      (some "whatsapp:+15551234567") (fun _ => none) none (fun _ _ => none) (fun s => s)
      "2026-01-01T00:00:00Z" Reachable.start (by decide) (by decide)).1⟩

/-- Claim C6: for every user state, `unsubscribe` removes the sender
from the subscriber set and deletes the stored location, leaves the
language preference and activity log untouched, and is idempotent: a
second `unsubscribe` (with any provider outcomes) leaves the directory
exactly as after the first. -/
theorem C6_unsubscribe (d : Directory) (body body2 fromRaw : Option String)
    (wO wO2 : String → Option OwmResponse) (aO aO2 : Option String)
    (tO tO2 : String → String → Option String) (lf lf2 : String → String)
    (now now2 : String)
    (hph : jsNormPhone fromRaw ≠ "")
    (hpref : (mapGet d.userPreferences (jsNormPhone fromRaw)).isSome = true)
    (hm : jsNormMsg body = "unsubscribe") (hm2 : jsNormMsg body2 = "unsubscribe") :
    webhook d body fromRaw wO aO tO lf now =
      mkReply (doUnsubscribe d (jsNormPhone fromRaw)) (jsNormPhone fromRaw) unsubText tO ∧
    jsNormPhone fromRaw ∉ (webhook d body fromRaw wO aO tO lf now).dir.subscribers ∧
    mapGet (webhook d body fromRaw wO aO tO lf now).dir.userLocations
      (jsNormPhone fromRaw) = none ∧
    (webhook d body fromRaw wO aO tO lf now).dir.userPreferences = d.userPreferences ∧
    (webhook d body fromRaw wO aO tO lf now).dir.userActivities = d.userActivities ∧
    (webhook (webhook d body fromRaw wO aO tO lf now).dir body2 fromRaw wO2 aO2 tO2
        lf2 now2).dir =
      (webhook d body fromRaw wO aO tO lf now).dir := by
  have he : webhook d body fromRaw wO aO tO lf now =
      mkReply (doUnsubscribe d (jsNormPhone fromRaw)) (jsNormPhone fromRaw) unsubText tO := by
    rw [webhook_known d body fromRaw wO aO tO lf now hph hpref, hm, dispatchKnown_unsub]
  refine ⟨he, ?_, ?_, ?_, ?_, ?_⟩
  · rw [he]
    intro hmem
    exact ((mem_setDelete d.subscribers (jsNormPhone fromRaw) (jsNormPhone fromRaw)).1
      hmem).2 rfl
  · rw [he]
    show mapGet (mapDelete d.userLocations (jsNormPhone fromRaw)) (jsNormPhone fromRaw) = none
    rw [mapGet_mapDelete, if_pos rfl]
  · rw [he]; rfl
  · rw [he]; rfl
  · rw [he]
    show (webhook (doUnsubscribe d (jsNormPhone fromRaw)) body2 fromRaw wO2 aO2 tO2
      lf2 now2).dir = doUnsubscribe d (jsNormPhone fromRaw)
    have hpref1 : (mapGet (doUnsubscribe d (jsNormPhone fromRaw)).userPreferences
        (jsNormPhone fromRaw)).isSome = true := hpref
    rw [webhook_known _ body2 fromRaw wO2 aO2 tO2 lf2 now2 hph hpref1, hm2,
      dispatchKnown_unsub]
    exact doUnsubscribe_idem d (jsNormPhone fromRaw)

/-- Witness for C6: a subscribed user sends `unsubscribe` twice; the
first call clears subscription and location, the second leaves the
directory unchanged. -/
theorem C6_unsubscribe_witness :
    webhook ⟨["+15551234567"], [("+15551234567", "pune")], [("+15551234567", "hi")],
        [("+15551234567", [⟨"sprayed", "2026-01-01"⟩])]⟩
      (some " UNSUBSCRIBE ") (some "whatsapp:+15551234567") (fun _ => none) none
      (fun _ _ => none) (fun s => s) "2026-01-02T00:00:00Z" =
      mkReply (doUnsubscribe ⟨["+15551234567"], [("+15551234567", "pune")],
          [("+15551234567", "hi")], [("+15551234567", [⟨"sprayed", "2026-01-01"⟩])]⟩
          "+15551234567")
        "+15551234567" unsubText (fun _ _ => none) ∧
    (webhook (webhook ⟨["+15551234567"], [("+15551234567", "pune")],
          [("+15551234567", "hi")], [("+15551234567", [⟨"sprayed", "2026-01-01"⟩])]⟩
        (some " UNSUBSCRIBE ") (some "whatsapp:+15551234567") (fun _ => none) none
        (fun _ _ => none) (fun s => s) "2026-01-02T00:00:00Z").dir
      (some "unsubscribe") (some "whatsapp:+15551234567") (fun _ => none) none
      (fun _ _ => none) (fun s => s) "2026-01-03T00:00:00Z").dir =
    (webhook ⟨["+15551234567"], [("+15551234567", "pune")], [("+15551234567", "hi")],
        [("+15551234567", [⟨"sprayed", "2026-01-01"⟩])]⟩
      (some " UNSUBSCRIBE ") (some "whatsapp:+15551234567") (fun _ => none) none
      (fun _ _ => none) (fun s => s) "2026-01-02T00:00:00Z").dir := by
  have h := C6_unsubscribe ⟨["+15551234567"], [("+15551234567", "pune")],
      [("+15551234567", "hi")], [("+15551234567", [⟨"sprayed", "2026-01-01"⟩])]⟩
    (some " UNSUBSCRIBE ") (some "unsubscribe") (some "whatsapp:+15551234567")
    (fun _ => none) (fun _ => none) none none (fun _ _ => none) (fun _ _ => none)
    (fun s => s) (fun s => s) "2026-01-02T00:00:00Z" "2026-01-03T00:00:00Z"
    (by decide) (by decide) (by decide) (by decide)
  exact ⟨h.1, h.2.2.2.2.2⟩

/-- Claim C1: in every reachable User Directory state, every user
identifier has at most one record in each store (no duplicate keys) and
every subscribed user has a stored location; and a `subscribe` message
with an empty city (for any sender and any provider outcomes)
establishes neither a subscription nor a location — the subscriber set
and location map are unchanged. -/
theorem C1_directory_invariant (d : Directory) (body fromRaw : Option String)
    (wO : String → Option OwmResponse) (aO : Option String)
    (tO : String → String → Option String) (lf : String → String) (now : String)
    (h : Reachable d)
    (hsub : jsStartsWith (jsNormMsg body) "subscribe" = true)
    (hempty : jsTrim (jsEraseFirst (jsNormMsg body) "subscribe") = "") :
    (d.subscribers.Nodup ∧ (keysOf d.userLocations).Nodup ∧
      (keysOf d.userPreferences).Nodup ∧ (keysOf d.userActivities).Nodup) ∧
    (∀ p ∈ d.subscribers, (mapGet d.userLocations p).isSome = true) ∧
    (webhook d body fromRaw wO aO tO lf now).dir.subscribers = d.subscribers ∧
    (webhook d body fromRaw wO aO tO lf now).dir.userLocations = d.userLocations := by
  obtain ⟨h1, h2, h3, h4, h5, _⟩ := reachable_invFull h
  refine ⟨⟨h1, h2, h3, h4⟩, h5, ?_⟩
  by_cases hph : jsNormPhone fromRaw = ""
  · rw [webhook_missing d body fromRaw wO aO tO lf now hph]
    exact ⟨rfl, rfl⟩
  · cases hprefc : mapGet d.userPreferences (jsNormPhone fromRaw) with
    | none =>
      rw [webhook_first d body fromRaw wO aO tO lf now hph hprefc]
      exact ⟨rfl, rfl⟩
    | some v =>
      rw [webhook_known d body fromRaw wO aO tO lf now hph (by rw [hprefc]; rfl),
        dispatchKnown_eq_subscribe d (jsNormMsg body) (jsNormPhone fromRaw) wO aO tO
          lf now hsub, if_pos hempty]
      exact ⟨rfl, rfl⟩

/-- Witness for C1: from a reachable state with one subscriber, a bare
`subscribe` message (empty city) changes neither the subscriber set nor
the location map, and the invariants hold. -/
theorem C1_directory_invariant_witness :
    Reachable emptyDir ∧
    jsStartsWith (jsNormMsg (some "  SUBSCRIBE   ")) "subscribe" = true ∧
    jsTrim (jsEraseFirst (jsNormMsg (some "  SUBSCRIBE   ")) "subscribe") = "" ∧
    (webhook emptyDir (some "  SUBSCRIBE   ") (some "whatsapp:+15551234567")
        (fun _ => none) none (fun _ _ => none) (fun s => s)
        "2026-01-01T00:00:00Z").dir.subscribers = emptyDir.subscribers ∧
    (webhook emptyDir (some "  SUBSCRIBE   ") (some "whatsapp:+15551234567")
        (fun _ => none) none (fun _ _ => none) (fun s => s)
        "2026-01-01T00:00:00Z").dir.userLocations = emptyDir.userLocations := by
  have h := C1_directory_invariant emptyDir (some "  SUBSCRIBE   ")
    (some "whatsapp:+15551234567") (fun _ => none) none (fun _ _ => none) (fun s => s)
    "2026-01-01T00:00:00Z" Reachable.start (by decide) (by decide)
  exact ⟨Reachable.start, by decide, by decide, h.2.2.1, h.2.2.2⟩

/-- Counterexample for C7: the raw inbound text `"log   "` matches the
`log ` prefix with an all-whitespace remainder, yet the bot's reply is
the help text, not the asking-for-content error: normalization trims the
message to `"log"` first, so the error branch never fires. -/
theorem C7_counterexample :
    jsStartsWith "log   " "log " = true ∧
    jsTrim (jsDrop 4 "log   ") = "" ∧
    webhook ⟨[], [], [("+15551234567", "en")], []⟩ (some "log   ")
        (some "whatsapp:+15551234567") (fun _ => none) none (fun _ _ => none)
        (fun s => s) "2026-01-01T00:00:00Z" =
      mkReply ⟨[], [], [("+15551234567", "en")], []⟩ "+15551234567" helpText
        (fun _ _ => none) ∧
    helpText ≠ logErrText :=
  ⟨by decide, by decide, by decide, by decide⟩

/-- Claim C7 as amended: because the inbound text is trimmed before
matching, a normalized message matching the `log ` prefix always has a
non-whitespace remainder — the empty-remainder error branch is
unreachable (raw inputs such as `"log   "` normalize to `"log"` and fall
through to the help reply with the log unchanged) — and every message
matching `log ` appends exactly one entry, holding the trimmed
remainder, at the end of the sender's activity log. -/
theorem C7_amended_log_append (d : Directory) (body fromRaw : Option String)
    (wO : String → Option OwmResponse) (aO : Option String)
    (tO : String → String → Option String) (lf : String → String) (now : String)
    (hph : jsNormPhone fromRaw ≠ "")
    (hpref : (mapGet d.userPreferences (jsNormPhone fromRaw)).isSome = true)
    (hlog : jsStartsWith (jsNormMsg body) "log " = true) :
    jsTrim (jsDrop 4 (jsNormMsg body)) ≠ "" ∧
    webhook d body fromRaw wO aO tO lf now =
      mkReply (pushActivity d (jsNormPhone fromRaw) (jsTrim (jsDrop 4 (jsNormMsg body))) now)
        (jsNormPhone fromRaw) (logOkText (jsTrim (jsDrop 4 (jsNormMsg body)))) tO ∧
    (webhook d body fromRaw wO aO tO lf now).dir.userActivities =
      mapSet d.userActivities (jsNormPhone fromRaw)
        (((mapGet d.userActivities (jsNormPhone fromRaw)).getD []) ++
          [⟨jsTrim (jsDrop 4 (jsNormMsg body)), now⟩]) := by
  have hne := normMsg_log_remainder body hlog
  have he : webhook d body fromRaw wO aO tO lf now =
      mkReply (pushActivity d (jsNormPhone fromRaw) (jsTrim (jsDrop 4 (jsNormMsg body))) now)
        (jsNormPhone fromRaw) (logOkText (jsTrim (jsDrop 4 (jsNormMsg body)))) tO := by
    rw [webhook_known d body fromRaw wO aO tO lf now hph hpref,
      dispatchKnown_eq_log d (jsNormMsg body) (jsNormPhone fromRaw) wO aO tO lf now hlog,
      if_neg hne]
  exact ⟨hne, he, by rw [he]; rfl⟩

/-- Witness for C7's amended claim: `"  LOG Sprayed Tomatoes  "`
normalizes to `log sprayed tomatoes` and appends the single entry
`sprayed tomatoes`. -/
theorem C7_amended_log_append_witness :
    jsTrim (jsDrop 4 (jsNormMsg (some "  LOG Sprayed Tomatoes  "))) ≠ "" ∧
    webhook ⟨[], [], [("+15551234567", "en")], []⟩ (some "  LOG Sprayed Tomatoes  ")
        (some "whatsapp:+15551234567") (fun _ => none) none (fun _ _ => none)
        (fun s => s) "2026-01-01T00:00:00Z" =
      mkReply (pushActivity ⟨[], [], [("+15551234567", "en")], []⟩ "+15551234567"
          "sprayed tomatoes" "2026-01-01T00:00:00Z")
        "+15551234567" (logOkText "sprayed tomatoes") (fun _ _ => none) := by
  have h := C7_amended_log_append ⟨[], [], [("+15551234567", "en")], []⟩
    (some "  LOG Sprayed Tomatoes  ") (some "whatsapp:+15551234567") (fun _ => none) none
    (fun _ _ => none) (fun s => s) "2026-01-01T00:00:00Z" (by decide) (by decide) (by decide)
  exact ⟨h.1, h.2.1.trans (by decide)⟩

/-- Claim C8: in every firing of the alert sweep, a notification goes to
a user only if that user is subscribed and the lookup succeeded with at
least one alert — the sweep output is exactly the per-entry `sendFor`
filter of the location list — and neither a failed lookup nor an
alert-free lookup for one user sends anything to that user or disturbs
the processing of the remaining users. -/
theorem C8_alert_sweep (d : Directory) (wO : String → Option OwmResponse)
    (q c q2 c2 : String) (rest rest2 : List (String × String)) (w : WeatherResult)
    (hfail : wO c = none) (hok : getWeather (wO c2) = some w)
    (hz : w.alerts.length = 0) :
    runAlertSweep d wO = d.userLocations.filterMap (sendFor d.subscribers wO) ∧
    sweep d.subscribers wO ((q, c) :: rest) = sweep d.subscribers wO rest ∧
    sweep d.subscribers wO ((q2, c2) :: rest2) = sweep d.subscribers wO rest2 := by
  refine ⟨sweep_eq_filterMap _ _ _, ?_, ?_⟩
  · by_cases hq : q ∈ d.subscribers
    · simp [sweep, hq, hfail, getWeather]
    · simp [sweep, hq]
  · by_cases hq : q2 ∈ d.subscribers
    · simp [sweep, hq, hok, hz]
    · simp [sweep, hq]

/-- Witness for C8: one subscriber's lookup fails and another entry has
no alerts; neither receives anything and the rest of the sweep is
unaffected. -/
theorem C8_alert_sweep_witness :
    runAlertSweep ⟨["+1", "+2"], [("+1", "bad"), ("+2", "pune")], [], []⟩
        (fun city => if city = "bad" then none
          else some ⟨"Pune", 20, some 1, some ("Clear", "clear sky")⟩) =
      (([("+1", "bad"), ("+2", "pune")] : List (String × String)).filterMap
        (sendFor ["+1", "+2"] (fun city => if city = "bad" then none
          else some ⟨"Pune", 20, some 1, some ("Clear", "clear sky")⟩))) ∧
    sweep ["+1", "+2"] (fun city => if city = "bad" then none
        else some ⟨"Pune", 20, some 1, some ("Clear", "clear sky")⟩)
      [("+1", "bad"), ("+2", "pune")] =
    sweep ["+1", "+2"] (fun city => if city = "bad" then none
        else some ⟨"Pune", 20, some 1, some ("Clear", "clear sky")⟩)
      [("+2", "pune")] := by
  have h := C8_alert_sweep ⟨["+1", "+2"], [("+1", "bad"), ("+2", "pune")], [], []⟩
    (fun city => if city = "bad" then none
      else some ⟨"Pune", 20, some 1, some ("Clear", "clear sky")⟩)
    "+1" "bad" "+2" "pune" [("+2", "pune")] []
    ⟨"Pune", 20, "clear sky", [], 1⟩ (by decide) (by decide) (by decide)
  exact ⟨h.1, h.2.1⟩

theorem webhook_body_congr (d : Directory) (x y fromRaw : Option String)
    (wO : String → Option OwmResponse) (aO : Option String)
    (tO : String → String → Option String) (lf : String → String) (now : String)
    (h : jsNormMsg x = jsNormMsg y) :
    webhook d x fromRaw wO aO tO lf now = webhook d y fromRaw wO aO tO lf now := by
  unfold webhook
  rw [h]

/-- Claim C9: every inbound text is trimmed and lower-cased before any
matcher runs — the dispatcher treats a message exactly like its
normalized form, so matching is case- and surrounding-whitespace-
insensitive — and the city stored by `subscribe` and the activity text
stored by `log` are computed from the lower-cased trimmed text
`jsToLower (jsTrim b)`, not from the original message `b`. -/
theorem C9_normalization (d : Directory) (b : String) (fromRaw : Option String)
    (wO : String → Option OwmResponse) (aO : Option String)
    (tO : String → String → Option String) (lf : String → String) (now : String) :
    webhook d (some (jsToLower (jsTrim b))) fromRaw wO aO tO lf now =
      webhook d (some b) fromRaw wO aO tO lf now ∧
    (jsStartsWith (jsNormMsg (some b)) "subscribe" = true →
      jsTrim (jsEraseFirst (jsNormMsg (some b)) "subscribe") ≠ "" →
      jsNormPhone fromRaw ≠ "" →
      (mapGet d.userPreferences (jsNormPhone fromRaw)).isSome = true →
      mapGet (webhook d (some b) fromRaw wO aO tO lf now).dir.userLocations
          (jsNormPhone fromRaw) =
        some (jsTrim (jsEraseFirst (jsToLower (jsTrim b)) "subscribe"))) ∧
    (jsStartsWith (jsNormMsg (some b)) "log " = true →
      jsNormPhone fromRaw ≠ "" →
      (mapGet d.userPreferences (jsNormPhone fromRaw)).isSome = true →
      (webhook d (some b) fromRaw wO aO tO lf now).dir.userActivities =
        mapSet d.userActivities (jsNormPhone fromRaw)
          (((mapGet d.userActivities (jsNormPhone fromRaw)).getD []) ++
            [⟨jsTrim (jsDrop 4 (jsToLower (jsTrim b))), now⟩])) := by
  refine ⟨?_, ?_, ?_⟩
  · exact webhook_body_congr d (some (jsToLower (jsTrim b))) (some b) fromRaw wO aO tO
      lf now (jsNormMsg_idem (some b))
  · intro hsub hemp hph hpref
    rw [webhook_known d (some b) fromRaw wO aO tO lf now hph hpref,
      dispatchKnown_eq_subscribe d (jsNormMsg (some b)) (jsNormPhone fromRaw) wO aO tO
        lf now hsub, if_neg hemp]
    show mapGet (mapSet d.userLocations (jsNormPhone fromRaw)
      (jsTrim (jsEraseFirst (jsNormMsg (some b)) "subscribe"))) (jsNormPhone fromRaw) = _
    rw [mapGet_mapSet, if_pos rfl]
    rfl
  · intro hlog hph hpref
    have hne := normMsg_log_remainder (some b) hlog
    rw [webhook_known d (some b) fromRaw wO aO tO lf now hph hpref,
      dispatchKnown_eq_log d (jsNormMsg (some b)) (jsNormPhone fromRaw) wO aO tO lf now
        hlog, if_neg hne]
    rfl

/-- Witness for C9: `"  SUBSCRIBE Mumbai  "` behaves exactly like its
normalized form `subscribe mumbai` and stores the lower-cased city
`mumbai`. -/
theorem C9_normalization_witness :
    webhook ⟨[], [], [("+15551234567", "en")], []⟩
        (some (jsToLower (jsTrim "  SUBSCRIBE Mumbai  "))) (some "whatsapp:+15551234567")
        (fun _ => none) none (fun _ _ => none) (fun s => s) "2026-01-01T00:00:00Z" =
      webhook ⟨[], [], [("+15551234567", "en")], []⟩ (some "  SUBSCRIBE Mumbai  ")
        (some "whatsapp:+15551234567") (fun _ => none) none (fun _ _ => none)
        (fun s => s) "2026-01-01T00:00:00Z" ∧
    mapGet (webhook ⟨[], [], [("+15551234567", "en")], []⟩ (some "  SUBSCRIBE Mumbai  ")
        (some "whatsapp:+15551234567") (fun _ => none) none (fun _ _ => none)
        (fun s => s) "2026-01-01T00:00:00Z").dir.userLocations "+15551234567" =
      some "mumbai" := by
  have h := C9_normalization ⟨[], [], [("+15551234567", "en")], []⟩ "  SUBSCRIBE Mumbai  "
    (some "whatsapp:+15551234567") (fun _ => none) none (fun _ _ => none) (fun s => s)
    "2026-01-01T00:00:00Z"
  exact ⟨h.1, (h.2.1 (by decide) (by decide) (by decide) (by decide)).trans (by decide)⟩

/-- Claim C10: a request whose sender identifier is empty after
stripping the `whatsapp:` prefix and trimming is answered with a 400
status, no directory change and no outbound message; every other
request is acknowledged with 200 — the missing-sender case is the only
unsuccessful acknowledgement. -/
theorem C10_missing_sender (d : Directory) (body fromRaw : Option String)
    (wO : String → Option OwmResponse) (aO : Option String)
    (tO : String → String → Option String) (lf : String → String) (now : String) :
    (jsNormPhone fromRaw = "" →
      webhook d body fromRaw wO aO tO lf now =
        { dir := d, sends := [], status := 400, composed := none }) ∧
    (jsNormPhone fromRaw ≠ "" →
      (webhook d body fromRaw wO aO tO lf now).status = 200) := by
  constructor
  · intro h
    exact webhook_missing d body fromRaw wO aO tO lf now h
  · intro h
    cases hpref : mapGet d.userPreferences (jsNormPhone fromRaw) with
    | none => rw [webhook_first d body fromRaw wO aO tO lf now h hpref]
    | some v =>
      rw [webhook_known d body fromRaw wO aO tO lf now h (by rw [hpref]; rfl)]
      exact dispatchKnown_status200 d (jsNormMsg body) (jsNormPhone fromRaw) wO aO tO lf now

/-- Witness for C10: a request whose `From` is just `whatsapp:` plus
whitespace gets the 400 rejection with no sends and no state change,
while the same request from a real sender is acknowledged with 200. -/
theorem C10_missing_sender_witness :
    webhook emptyDir (some "hello") (some "whatsapp:   ") (fun _ => none) none
        (fun _ _ => none) (fun s => s) "2026-01-01T00:00:00Z" =
      { dir := emptyDir, sends := [], status := 400, composed := none } ∧
    (webhook emptyDir (some "hello") (some "whatsapp:+15551234567") (fun _ => none) none
        (fun _ _ => none) (fun s => s) "2026-01-01T00:00:00Z").status = 200 := by
  constructor
  · exact (C10_missing_sender emptyDir (some "hello") (some "whatsapp:   ")
      (fun _ => none) none (fun _ _ => none) (fun s => s) "2026-01-01T00:00:00Z").1
      (by decide)
  · exact (C10_missing_sender emptyDir (some "hello") (some "whatsapp:+15551234567")
      (fun _ => none) none (fun _ _ => none) (fun s => s) "2026-01-01T00:00:00Z").2
      (by decide)
